import Mathlib

/-!
Verification development for the client-side core of an LSP plugin:
the RPC client (`plugin/core/rpc.py`), the per-server session state
machine (`plugin/core/sessions.py`) and the bidirectional dictionary
(`plugin/core/bidict.py`), shallowly embedded in Lean.

JSON payloads are modelled by the inductive type `JValue`; Python `dict`s
appearing in payloads are association lists with the leftmost binding
authoritative, and the dictionary operations used by the code
(`get`, `update`, item assignment) are modelled on those lists.
Python exceptions are modelled with `Except Unit`.
-/

namespace LSPCore

/-- JSON values as decoded by the plugin (Python objects after json.loads).
Python `None` and JSON `null` are both `JValue.null`.  Numbers are modelled
as integers (the only numeric capability values the code inspects). -/
inductive JValue where
  | null : JValue
  | bool : Bool → JValue
  | int : Int → JValue
  | str : String → JValue
  | arr : List JValue → JValue
  | obj : List (String × JValue) → JValue

/-- Association-list lookup: Python `d[k]` / `k in d` on a decoded JSON
object.  The leftmost binding wins. -/
def assocGet {α β : Type} [DecidableEq α] : List (α × β) → α → Option β
  | [], _ => none
  | (k, v) :: rest, key => if k = key then some v else assocGet rest key

/-- Python `d.get(k)`: the bound value, or `None` when the key is absent. -/
def dictGet (d : List (String × JValue)) (k : String) : JValue :=
  (assocGet d k).getD JValue.null

/-- Python `d.get(k, default)`. -/
def dictGetD (d : List (String × JValue)) (k : String) (default : JValue) : JValue :=
  (assocGet d k).getD default

/-- Python `d[k] = v` on an association list: replace the binding when the
key exists, otherwise append it. -/
def assocSet {α β : Type} [DecidableEq α] : List (α × β) → α → β → List (α × β)
  | [], key, v => [(key, v)]
  | (k, w) :: rest, key, v =>
    if k = key then (key, v) :: rest else (k, w) :: assocSet rest key v

/-- Python `del d[k]` / `d.pop(k)` on an association list: drop the first
binding of the key. -/
def assocErase {α β : Type} [DecidableEq α] : List (α × β) → α → List (α × β)
  | [], _ => []
  | (k, w) :: rest, key => if k = key then rest else (k, w) :: assocErase rest key

/-- Python `old.update(new)` on dictionaries: every binding of `new` is
written into `old`, in order. -/
def dictUpdate (old new : List (String × JValue)) : List (String × JValue) :=
  new.foldl (fun acc kv => assocSet acc kv.fst kv.snd) old

/-- Python truthiness of a decoded JSON value (`bool(v)` / `if v:`). -/
def truthy : JValue → Bool
  | JValue.null => false
  | JValue.bool b => b
  | JValue.int n => n ≠ 0
  | JValue.str s => s ≠ ""
  | JValue.arr xs => ¬ xs.isEmpty
  | JValue.obj kvs => ¬ kvs.isEmpty

/-- Python `isinstance(v, dict)` on a decoded JSON value. -/
def isDict : JValue → Bool
  | JValue.obj _ => true
  | _ => false

/-- Python `isinstance(v, int)` on a decoded JSON value.  `bool` is a
subclass of `int` in Python, so booleans satisfy it as well. -/
def isInstInt : JValue → Bool
  | JValue.int _ => true
  | JValue.bool _ => true
  | _ => false

/-- Python `isinstance(v, bool)`. -/
def isInstBool : JValue → Bool
  | JValue.bool _ => true
  | _ => false

/-- The integer a value of `isInstInt` shape stands for (`True` is `1`,
`False` is `0`). -/
def intLikeVal : JValue → Int
  | JValue.int n => n
  | JValue.bool b => if b then 1 else 0
  | _ => 0

/-- Python `int(v)` coercion: succeeds on ints, bools and strings spelling
an integer; raises `TypeError`/`ValueError` (modelled `Except.error ()`)
on `None`, non-numeric strings, lists and dicts. -/
def pyInt : JValue → Except Unit Int
  | JValue.int n => Except.ok n
  | JValue.bool b => Except.ok (if b then 1 else 0)
  | JValue.str s =>
    match s.toInt? with
    | some n => Except.ok n
    | none => Except.error ()
  | _ => Except.error ()

/-- Does an `Except` computation finish without raising? -/
def isOk {ε α : Type} : Except ε α → Bool
  | Except.ok _ => true
  | Except.error _ => false

/-- Split a character list on a separator character.  The result always has
one more element than there are separators, so splitting the empty string
gives `[[]]` — exactly Python `str.split` with a one-character separator. -/
def splitOnChar (sep : Char) : List Char → List (List Char)
  | [] => [[]]
  | c :: cs =>
    if c = sep then [] :: splitOnChar sep cs
    else
      match splitOnChar sep cs with
      | [] => [[c]]
      | w :: ws => (c :: w) :: ws

/-- Python `s.split(sep)` for a one-character separator. -/
def pySplit (s : String) (sep : Char) : List String :=
  (splitOnChar sep s.data).map String.mk

/-- Boolean list-prefix test (`List.isPrefixOf` with decidable equality). -/
def listIsPrefix {α : Type} [DecidableEq α] : List α → List α → Bool
  | [], _ => true
  | _ :: _, [] => false
  | a :: as, b :: bs => if a = b then listIsPrefix as bs else false

/-! ## Session capability decoders (`plugin/core/sessions.py`)

The capability cache `self.capabilities` is a Python dict from capability
name to the JSON value received in the `initialize` response; it is
modelled as an association list.  `TextDocumentSyncKindNone` comes from
`plugin/core/protocol.py`, which is not in the sources. -/

/-- Modelled from the spec: the `TextDocumentSyncKindNone` constant of
`plugin/core/protocol.py` (absent from the sources) — the LSP
`TextDocumentSyncKind.None` value, `0`; the spec's decoders compare the
sync kind against it ("an integer > None"). -/
def TextDocumentSyncKindNone : Int := 0

/-- Embeds `Session.should_notify_did_open`: dict shape reads truthiness of
`openClose`; int shape (which includes Python bools) compares against
`TextDocumentSyncKindNone`; every other shape gives `false`. -/
def should_notify_did_open (caps : List (String × JValue)) : Bool :=
  match dictGet caps "textDocumentSync" with
  | JValue.obj kvs => truthy (dictGet kvs "openClose")
  | t => if isInstInt t then intLikeVal t > TextDocumentSyncKindNone else false

/-- Embeds `Session.text_sync_kind`: dict shape coerces the `change` field with
Python `int(...)` (defaulting to `TextDocumentSyncKindNone` only when the
field is absent) — the coercion raises on non-numeric values; int shape
returns the int itself; every other shape gives `TextDocumentSyncKindNone`. -/
def text_sync_kind (caps : List (String × JValue)) : Except Unit Int :=
  match dictGet caps "textDocumentSync" with
  | JValue.obj kvs => pyInt (dictGetD kvs "change" (JValue.int TextDocumentSyncKindNone))
  | t => if isInstInt t then Except.ok (intLikeVal t) else Except.ok TextDocumentSyncKindNone

/-- Embeds `Session.should_notify_did_change`: `text_sync_kind() > TextDocumentSyncKindNone`. -/
def should_notify_did_change (caps : List (String × JValue)) : Except Unit Bool :=
  (text_sync_kind caps).map (fun k => k > TextDocumentSyncKindNone)

/-- Embeds `Session.should_notify_will_save`: dict shape only, truthiness of `willSave`. -/
def should_notify_will_save (caps : List (String × JValue)) : Bool :=
  match dictGet caps "textDocumentSync" with
  | JValue.obj kvs => truthy (dictGet kvs "willSave")
  | _ => false

/-- Embeds `Session.should_request_will_save_wait_until`: dict shape only,
truthiness of `willSaveWaitUntil`. -/
def should_request_will_save_wait_until (caps : List (String × JValue)) : Bool :=
  match dictGet caps "textDocumentSync" with
  | JValue.obj kvs => truthy (dictGet kvs "willSaveWaitUntil")
  | _ => false

/-- Embeds `Session.should_notify_did_save`: `(enabled, include_text)`.  Dict-shaped
`save` gives `(true, bool(includeText))`; bool-shaped `save` gives
`(save, false)`; everything else `(false, false)`. -/
def should_notify_did_save (caps : List (String × JValue)) : Bool × Bool :=
  match dictGet caps "textDocumentSync" with
  | JValue.obj kvs =>
    match dictGet kvs "save" with
    | JValue.obj opts => (true, truthy (dictGet opts "includeText"))
    | JValue.bool b => (b, false)
    | _ => (false, false)
  | _ => (false, false)

/-- Embeds `Session.should_notify_did_close`, an alias for `should_notify_did_open`. -/
def should_notify_did_close (caps : List (String × JValue)) : Bool :=
  should_notify_did_open caps

/-- Can the value be coerced by Python `int(...)` (ints, bools, and strings
spelling an integer)? -/
def intCoercible : JValue → Bool
  | JValue.int _ => true
  | JValue.bool _ => true
  | JValue.str s => (s.toInt?).isSome
  | _ => false

/-- The shapes of the `textDocumentSync` capability on which
`text_sync_kind` (and hence `should_notify_did_change`) completes without
raising: anything except an object whose effective `change` value is not
int-coercible. -/
def change_field_ok (caps : List (String × JValue)) : Bool :=
  match dictGet caps "textDocumentSync" with
  | JValue.obj kvs => intCoercible (dictGetD kvs "change" (JValue.int TextDocumentSyncKindNone))
  | _ => true

/-! ## Session data and state machine (`plugin/core/sessions.py`) -/

/-- Modelled from the spec: the `ClientStates` enumeration of
`plugin/core/types.py` (absent from the sources) — "enumerated value
{STARTING, READY, STOPPING, STOPPED}". -/
inductive ClientState where
  | STARTING : ClientState
  | READY : ClientState
  | STOPPING : ClientState
  | STOPPED : ClientState
deriving Repr, DecidableEq

/-- Modelled from the spec: the `WorkspaceFolder` record of
`plugin/core/protocol.py` (absent from the sources) — `{uri, name, path}`,
compared by value. -/
structure WorkspaceFolder where
  uri : String
  name : String
  path : String
deriving Repr, DecidableEq

/-- A JSON-RPC id: "Server request IDs can be either a string or an int"
(comment in `Client.request_or_notification_handler`). -/
inductive RequestId where
  | int : Int → RequestId
  | str : String → RequestId
deriving Repr, DecidableEq

/-- Observable effects of the client and session code: outbound payloads,
log lines, host-manager callbacks and registered-handler invocations.
Handlers passed to `send_request` are identified by opaque tokens (`Nat`). -/
inductive Action where
  | sendNotification : String → JValue → Action
  | sendResponse : RequestId → JValue → Action
  | sendErrorResponse : RequestId → Int → String → Action
  | callManager : String → Action
  | logLine : String → Action
  | logUnhandled : String → Action
  | invokeHandler : Nat → JValue → Action
  | invokeErrorHandler : Nat → JValue → Action
  | invokeMethodHandler : String → JValue → Option RequestId → Action

/-- The Session fields the verified operations touch: `self.state`,
`self.capabilities`, `self._workspace_folders`, `self.config.settings`, and
whether `self.transport` is still set. -/
structure SessionData where
  state : ClientState
  capabilities : List (String × JValue)
  workspaceFolders : List WorkspaceFolder
  configSettings : JValue
  transportOpen : Bool

/-- Embeds `Session.on_transport_close` (which first runs
`Client.on_transport_close`): clears `self.transport`, logs, and calls
`on_post_exit` on the manager.  `self.state` is not assigned. -/
def on_transport_close (s : SessionData) (exit_code : Int) : SessionData × List Action :=
  ({ s with transportOpen := false },
   [Action.logLine ("stopped, exit code " ++ toString exit_code),
    Action.callManager "on_post_exit"])

/-- Embeds `Session._supports_workspace_folders`: the raw
`capabilities.get("workspace", {}).get("workspaceFolders", {}).get("supported")`
value; raises (AttributeError) when an intermediate value is present but
not a dict. -/
def supports_workspace_folders (caps : List (String × JValue)) : Except Unit JValue :=
  match dictGetD caps "workspace" (JValue.obj []) with
  | JValue.obj w =>
    match dictGetD w "workspaceFolders" (JValue.obj []) with
    | JValue.obj f => Except.ok (dictGet f "supported")
    | _ => Except.error ()
  | _ => Except.error ()

/-- The session after `Session._handle_initialize_result` finished: cache
and folder list replaced, state `READY`, the other fields untouched. -/
def initReadyState (s : SessionData) (caps : List (String × JValue))
    (folders : List WorkspaceFolder) : SessionData :=
  { state := ClientState.READY, capabilities := caps, workspaceFolders := folders,
    configSettings := s.configSettings, transportOpen := s.transportOpen }

/-- The sends of `Session._handle_initialize_result`:
`workspace/didChangeConfiguration` with `{settings: config.settings}` when
`config.settings` is truthy, then the `on_post_initialize` manager call. -/
def initNotifyActs (s : SessionData) : List Action :=
  (if truthy s.configSettings then
    [Action.sendNotification "workspace/didChangeConfiguration"
      (JValue.obj [("settings", s.configSettings)])]
  else []) ++ [Action.callManager "on_post_initialize"]

/-- Embeds `Session._handle_initialize_result`: merge the response's
`capabilities` into the cache, truncate the folder list to its first
element when folders exist but the server does not advertise
workspace-folder support, move to `READY`, send
`workspace/didChangeConfiguration` when `config.settings` is truthy, and
call `on_post_initialize` on the manager.  `result.get(...)` and
`dict.update(...)` raise when the response or its `capabilities` value is
not a dict, as does `_supports_workspace_folders` on a non-dict
`workspace` capability. -/
def handle_init_result (s : SessionData) (result : JValue) :
    Except Unit (SessionData × List Action) :=
  match result with
  | JValue.obj kvs =>
    match dictGetD kvs "capabilities" (JValue.obj []) with
    | JValue.obj respCaps =>
      let caps := dictUpdate s.capabilities respCaps
      if s.workspaceFolders.isEmpty then
        Except.ok (initReadyState s caps s.workspaceFolders, initNotifyActs s)
      else
        match supports_workspace_folders caps with
        | Except.ok sup =>
          if truthy sup then
            Except.ok (initReadyState s caps s.workspaceFolders, initNotifyActs s)
          else
            Except.ok (initReadyState s caps (s.workspaceFolders.take 1), initNotifyActs s)
        | Except.error e => Except.error e
    | _ => Except.error ()
  | _ => Except.error ()

/-- The session state produced by `handle_init_result` (unchanged when the
handler raises). -/
def initResultState (s : SessionData) (result : JValue) : SessionData :=
  match handle_init_result s result with
  | Except.ok (s', _) => s'
  | Except.error _ => s

/-- The actions emitted by `handle_init_result` (none when the handler
raises). -/
def initResultActs (s : SessionData) (result : JValue) : List Action :=
  match handle_init_result s result with
  | Except.ok (_, acts) => acts
  | Except.error _ => []

/-- Modelled from the spec: `is_subpath_of` from `plugin/core/workspace.py`
(absent from the sources) — "true iff `path` is a subpath of any folder's
`path`": a path is a subpath of a folder path when the folder path's
`/`-separated components are a prefix of the path's components. -/
def is_subpath_of (file_path folder_path : String) : Bool :=
  listIsPrefix (pySplit folder_path '/') (pySplit file_path '/')

/-- Embeds `Session.handles_path` over the session's `_workspace_folders`:
a falsy (absent or empty) path is not handled; with no folders every
non-empty path is handled; otherwise the path must be a subpath of some
folder's path. -/
def handles_path (folders : List WorkspaceFolder) (file_path : Option String) : Bool :=
  match file_path with
  | none => false
  | some p =>
    if p = "" then false
    else if folders.isEmpty then true
    else folders.any (fun f => is_subpath_of p f.path)

/-- Embeds `get_dotted_value`, the loop over the split keys: a non-dict node
(including the `None` produced by a missing key) makes the lookup return
`None`. -/
def get_dotted_value_go : JValue → List String → JValue
  | cur, [] => cur
  | cur, k :: ks =>
    match cur with
    | JValue.obj kvs => get_dotted_value_go (dictGet kvs k) ks
    | _ => JValue.null

/-- Embeds `get_dotted_value(current, dotted)` from `plugin/core/sessions.py`:
walk `dotted.split('.')`. -/
def get_dotted_value (current : JValue) (dotted : String) : JValue :=
  get_dotted_value_go current (pySplit dotted '.')

/-- One requested configuration item, as the loop body of
`Session.m_workspace_configuration` treats it: an item with a truthy
`section` resolves it via `get_dotted_value` (raising on a non-string
section, which Python would `.split`), an item with a falsy or missing
`section` yields the whole `config.settings`.  A non-dict item raises. -/
def configuration_item_value (settings : JValue) (item : JValue) : Except Unit JValue :=
  match item with
  | JValue.obj kvs =>
    match assocGet kvs "section" with
    | some sec =>
      if truthy sec then
        match sec with
        | JValue.str s => Except.ok (get_dotted_value settings s)
        | _ => Except.error ()
      else Except.ok settings
    | none => Except.ok settings
  | _ => Except.error ()

/-- The `for requested_item in requested_items` loop of
`Session.m_workspace_configuration`, collecting the resolved items in
order. -/
def resolve_items (settings : JValue) : List JValue → Except Unit (List JValue)
  | [] => Except.ok []
  | it :: its => do
    let v ← configuration_item_value settings it
    let rest ← resolve_items settings its
    Except.ok (v :: rest)

/-- The `requested_items = params.get("items") or []` read of
`Session.m_workspace_configuration`, as the list the loop iterates.
Iterating a non-array `items` value is modelled as an error. -/
def items_of (params : List (String × JValue)) : Except Unit (List JValue) :=
  match (if truthy (dictGet params "items") then dictGet params "items" else JValue.arr []) with
  | JValue.arr xs => Except.ok xs
  | _ => Except.error ()

/-- Embeds `Session.m_workspace_configuration`: read `params.get("items") or []`,
resolve every requested item, and reply with the array. -/
def m_workspace_configuration (settings : JValue) (params : List (String × JValue))
    (request_id : RequestId) : Except Unit (List Action) :=
  match items_of params with
  | Except.ok xs =>
    match resolve_items settings xs with
    | Except.ok items => Except.ok [Action.sendResponse request_id (JValue.arr items)]
    | Except.error e => Except.error e
  | Except.error e => Except.error e

/-- The spec's description of the dotted lookup, written from §8 of the
specification: resolve each path step in turn, absent when a step is
missing or the walk traverses a non-object. -/
def dotted_lookup_spec : JValue → List String → Option JValue
  | v, [] => some v
  | v, k :: ks =>
    match v with
    | JValue.obj kvs =>
      match assocGet kvs k with
      | some w => dotted_lookup_spec w ks
      | none => none
    | _ => none

/-- The spec's description of a configuration reply element: a non-empty
string section resolves by dotted lookup (absent, i.e. `null`, on a failed
walk), an empty or absent section yields the whole settings. -/
def spec_item_value (settings : JValue) (item : JValue) : JValue :=
  match item with
  | JValue.obj kvs =>
    match assocGet kvs "section" with
    | some (JValue.str s) =>
      if s = "" then settings
      else (dotted_lookup_spec settings (pySplit s '.')).getD JValue.null
    | some _ => settings
    | none => settings
  | _ => JValue.null

/-- Is a requested configuration item inside the claim's scope: a dict
whose `section`, when present, is a string? -/
def wf_config_item : JValue → Bool
  | JValue.obj kvs =>
    match assocGet kvs "section" with
    | some (JValue.str _) => true
    | some _ => false
    | none => true
  | _ => false

/-! ## RPC client (`plugin/core/rpc.py`) -/

/-- Modelled from the spec: `ErrorCode.MethodNotFound` of
`plugin/core/protocol.py` (absent from the sources) — the JSON-RPC
"method not found" code. -/
def MethodNotFound : Int := -32601

/-- The `Client` fields the verified operations touch: the request-id
counter, the response-handler table and the sync-result map.  Registered
handler pairs are opaque tokens (`Option Nat × Option Nat`). -/
structure RpcState where
  request_id : Int
  response_handlers : List (Int × (Option Nat × Option Nat))
  sync_request_results : List (Int × JValue)

/-- A freshly constructed `Client`: ids start at 0 (pre-increment), both
tables empty. -/
def freshClient : RpcState :=
  { request_id := 0, response_handlers := [], sync_request_results := [] }

/-- Embeds `Client.send_request`: pre-increment the id, register
`(handler, error_handler)` under it before the payload is written, send.
Returns the allocated id. -/
def send_request (c : RpcState) (handler : Nat) (error_handler : Option Nat) :
    RpcState × Int :=
  let rid := c.request_id + 1
  ({ request_id := rid,
     response_handlers := assocSet c.response_handlers rid (some handler, error_handler),
     sync_request_results := c.sync_request_results }, rid)

/-- The sending half of `Client.execute_request`: pre-increment the id and
write the payload; no handler pair is registered. -/
def execute_request_send (c : RpcState) : RpcState × Int :=
  ({ request_id := c.request_id + 1,
     response_handlers := c.response_handlers,
     sync_request_results := c.sync_request_results }, c.request_id + 1)

/-- The waiting half of `Client.execute_request` once the condition
variable wait has returned: `self._sync_request_results.pop(request_id)`
yields the deposited result when one is present; otherwise the `pop`
raises `KeyError`, which is caught and turned into `None`. -/
def execute_request_finish (c : RpcState) (rid : Int) : RpcState × Option JValue :=
  match assocGet c.sync_request_results rid with
  | some v =>
    ({ request_id := c.request_id,
       response_handlers := c.response_handlers,
       sync_request_results := assocErase c.sync_request_results rid }, some v)
  | none => (c, none)

/-- Embeds `Client.response_handler` for a response with integer id `rid` and
`result` / `error` fields as given: pop the handler pair (defaulting to
`(None, None)`); a result goes to the success handler or, absent one, is
deposited into the sync-result map; an error goes to the error handler or,
absent one, is re-raised (`Except.error`); both-or-neither is logged as an
invalid payload. -/
def response_handler (c : RpcState) (rid : Int) (result err : Option JValue) :
    Except Unit (RpcState × List Action) :=
  let pair := (assocGet c.response_handlers rid).getD (none, none)
  let c' : RpcState :=
    { request_id := c.request_id,
      response_handlers := assocErase c.response_handlers rid,
      sync_request_results := c.sync_request_results }
  match result, err with
  | some res, none =>
    match pair.fst with
    | some h => Except.ok (c', [Action.invokeHandler h res])
    | none =>
      Except.ok ({ request_id := c'.request_id,
                   response_handlers := c'.response_handlers,
                   sync_request_results := assocSet c'.sync_request_results rid res }, [])
  | none, some e =>
    match pair.snd with
    | some h => Except.ok (c', [Action.invokeErrorHandler h e])
    | none => Except.error ()
  | _, _ => Except.ok (c', [Action.logLine "invalid response payload"])

/-- The name-mangling rule for incoming methods:
`'m_{}'.format(method.replace('/', '_').replace('$', '_'))`.  The two
`str.replace` calls have one-character patterns, so together they are the
per-character substitution below. -/
def mangle (method : String) : String :=
  String.mk ('m' :: '_' ::
    method.data.map (fun c => if c = '/' then '_' else if c = '$' then '_' else c))

/-- The `m_...` handler attributes `Session` defines. -/
def sessionHandlerNames : List String :=
  ["m_window_showMessageRequest", "m_window_showMessage", "m_window_logMessage",
   "m_workspace_workspaceFolders", "m_workspace_configuration",
   "m_workspace_applyEdit", "m_textDocument_publishDiagnostics"]

/-- Embeds `Client.request_or_notification_handler`, dispatching on whether a
mangled handler attribute exists (`handlers` lists the existing attribute
names) and whether `payload.get("id")` is non-`None`.  The invocation of
an existing handler (with its try/except wrapping) is abstracted into a
single action; a missing handler answers a request with a
`MethodNotFound` error response whose message is the method name, and
logs a notification as unhandled. -/
def request_or_notification_handler (handlers : List String) (method : String)
    (id : Option RequestId) (params : JValue) : List Action :=
  let callable := handlers.contains (mangle method)
  match id with
  | some rid =>
    if callable then [Action.invokeMethodHandler method params (some rid)]
    else [Action.sendErrorResponse rid MethodNotFound method]
  | none =>
    if callable then [Action.invokeMethodHandler method params none]
    else [Action.logUnhandled method]

/-- An id-allocating client call: `send_request` (with a handler pair) or
`execute_request`. -/
inductive RpcOp where
  | sendReq : Nat → Option Nat → RpcOp
  | execReq : RpcOp
deriving Repr, DecidableEq

/-- Run a sequence of id-allocating calls and collect the request ids
they put on the wire. -/
def request_ids (c : RpcState) : List RpcOp → List Int
  | [] => []
  | RpcOp.sendReq h eh :: ops =>
    let r := send_request c h eh
    r.snd :: request_ids r.fst ops
  | RpcOp.execReq :: ops =>
    let r := execute_request_send c
    r.snd :: request_ids r.fst ops

/-! ## Bidirectional dictionary (`plugin/core/bidict.py`) -/

/-- Embeds `BidirectionalDictionary`: a dict (association list, leftmost binding
authoritative) together with `self._inverse`, the set of values kept for
`has_value` — modelled as a duplicate-free list. -/
structure Bidict (α β : Type) where
  entries : List (α × β)
  inverse : List β

/-- Embeds `BidirectionalDictionary()`, empty. -/
def Bidict.empty {α β : Type} : Bidict α β := ⟨[], []⟩

/-- Python `set.add`. -/
def setInsert {β : Type} [DecidableEq β] (s : List β) (v : β) : List β :=
  if v ∈ s then s else s ++ [v]

/-- Embeds `BidirectionalDictionary.__setitem__`: store the binding and add the
value to the inverse set. -/
def Bidict.setitem {α β : Type} [DecidableEq α] [DecidableEq β]
    (d : Bidict α β) (k : α) (v : β) : Bidict α β :=
  ⟨assocSet d.entries k v, setInsert d.inverse v⟩

/-- Embeds `BidirectionalDictionary.__delitem__`: `get` the value (absent keys
give `None`, which `set.discard` ignores), discard it from the inverse
set, then delete the key — `del` on a missing key raises `KeyError`. -/
def Bidict.delitem {α β : Type} [DecidableEq α] [DecidableEq β]
    (d : Bidict α β) (k : α) : Except Unit (Bidict α β) :=
  match assocGet d.entries k with
  | some v => Except.ok ⟨assocErase d.entries k, d.inverse.erase v⟩
  | none => Except.error ()

/-- Embeds `BidirectionalDictionary.pop`: a present key is popped and its value
removed from the inverse set with `set.remove`, which raises `KeyError`
when the value is not in the set; a missing key returns the default. -/
def Bidict.popKey {α β : Type} [DecidableEq α] [DecidableEq β]
    (d : Bidict α β) (k : α) : Except Unit (Bidict α β × Option β) :=
  match assocGet d.entries k with
  | some v =>
    if v ∈ d.inverse then Except.ok (⟨assocErase d.entries k, d.inverse.erase v⟩, some v)
    else Except.error ()
  | none => Except.ok (d, none)

/-- Embeds `BidirectionalDictionary.has_value`: membership in the inverse set. -/
def Bidict.has_value {α β : Type} [DecidableEq β] (d : Bidict α β) (v : β) : Bool :=
  d.inverse.any (fun w => w = v)

/-- A mutating `BidirectionalDictionary` operation. -/
inductive BOp (α β : Type) where
  | set : α → β → BOp α β
  | del : α → BOp α β
  | popOp : α → BOp α β

/-- Run a sequence of mutating operations, stopping at the first escaped
`KeyError`. -/
def Bidict.run {α β : Type} [DecidableEq α] [DecidableEq β]
    (d : Bidict α β) : List (BOp α β) → Except Unit (Bidict α β)
  | [] => Except.ok d
  | BOp.set k v :: ops => Bidict.run (d.setitem k v) ops
  | BOp.del k :: ops => do
    let d' ← d.delitem k
    Bidict.run d' ops
  | BOp.popOp k :: ops => do
    let r ← d.popKey k
    Bidict.run r.fst ops

/-! ## Sample inputs used by witnesses and counterexamples -/

/-- A session that has executed `end()`: capabilities cleared, state
`STOPPING`, transport still up. -/
def stoppingSession : SessionData :=
  { state := ClientState.STOPPING, capabilities := [], workspaceFolders := [],
    configSettings := JValue.null, transportOpen := true }

/-- Three workspace folders, as in scenario S5. -/
def sampleFolders : List WorkspaceFolder :=
  [⟨"file:///a", "a", "/a"⟩, ⟨"file:///b", "b", "/b"⟩, ⟨"file:///c", "c", "/c"⟩]

/-- A starting session with three folders and non-empty settings. -/
def startingSession : SessionData :=
  { state := ClientState.STARTING, capabilities := [], workspaceFolders := sampleFolders,
    configSettings := JValue.obj [("a", JValue.int 1)], transportOpen := true }

/-- An `initialize` response whose capabilities do not advertise
`workspace.workspaceFolders.supported`. -/
def sampleInitResult : JValue :=
  JValue.obj [("capabilities", JValue.obj [("textDocumentSync", JValue.int 1)])]

/-- The settings of scenario S4. -/
def sampleSettings : JValue :=
  JValue.obj [("python", JValue.obj [("pythonPath", JValue.str "/usr/bin/py")])]

/-- The requested configuration items of scenario S4. -/
def sampleItems : List JValue :=
  [JValue.obj [("section", JValue.str "python.pythonPath")],
   JValue.obj [("section", JValue.str "")],
   JValue.obj []]

/-- The `workspace/configuration` params of scenario S4. -/
def sampleParams : List (String × JValue) :=
  [("items", JValue.arr sampleItems)]

/-! ## Helper lemmas -/

theorem assocErase_get_none {α β : Type} [DecidableEq α] (l : List (α × β)) (k : α)
    (h : assocGet l k = none) : assocErase l k = l := by
  induction l with
  | nil => rfl
  | cons kv rest ih =>
    obtain ⟨k', v⟩ := kv
    by_cases hk : k' = k
    · subst hk; simp [assocGet] at h
    · rw [assocGet, if_neg hk] at h
      rw [assocErase, if_neg hk, ih h]

theorem isOk_pyInt (v : JValue) : isOk (pyInt v) = intCoercible v := by
  cases v with
  | str s =>
    rw [pyInt, intCoercible]
    cases s.toInt? <;> rfl
  | null => rfl
  | bool b => rfl
  | int n => rfl
  | arr xs => rfl
  | obj kvs => rfl

theorem isOk_map {ε α β : Type} (f : α → β) (x : Except ε α) :
    isOk (Except.map f x) = isOk x := by
  cases x <;> rfl

theorem get_dotted_value_go_null (ks : List String) :
    get_dotted_value_go JValue.null ks = JValue.null := by
  cases ks <;> rfl

theorem get_dotted_value_go_spec (keys : List String) (v : JValue) :
    get_dotted_value_go v keys = (dotted_lookup_spec v keys).getD JValue.null := by
  induction keys generalizing v with
  | nil => rfl
  | cons k ks ih =>
    cases v with
    | obj kvs =>
      cases h : assocGet kvs k with
      | some w =>
        rw [get_dotted_value_go, dotted_lookup_spec]
        rw [dictGet, h, ih]
        rfl
      | none =>
        rw [get_dotted_value_go, dotted_lookup_spec]
        rw [dictGet, h]
        exact get_dotted_value_go_null ks
    | null => rfl
    | bool b => rfl
    | int n => rfl
    | str s => rfl
    | arr xs => rfl

theorem configuration_item_value_spec (settings item : JValue)
    (h : wf_config_item item = true) :
    configuration_item_value settings item = Except.ok (spec_item_value settings item) := by
  cases item with
  | obj kvs =>
    cases hs : assocGet kvs "section" with
    | none => rw [configuration_item_value, spec_item_value, hs]
    | some sec =>
      cases sec with
      | str s =>
        by_cases he : s = ""
        · subst he
          rw [configuration_item_value, spec_item_value, hs]
          rfl
        · rw [configuration_item_value, spec_item_value, hs]
          simp only [truthy, he, if_true, if_neg he]
          rw [get_dotted_value, get_dotted_value_go_spec]
          simp [he]
      | null => rw [wf_config_item, hs] at h; exact absurd h (by simp)
      | bool b => rw [wf_config_item, hs] at h; exact absurd h (by simp)
      | int n => rw [wf_config_item, hs] at h; exact absurd h (by simp)
      | arr xs => rw [wf_config_item, hs] at h; exact absurd h (by simp)
      | obj o => rw [wf_config_item, hs] at h; exact absurd h (by simp)
  | null => exact absurd h (by simp [wf_config_item])
  | bool b => exact absurd h (by simp [wf_config_item])
  | int n => exact absurd h (by simp [wf_config_item])
  | str s => exact absurd h (by simp [wf_config_item])
  | arr xs => exact absurd h (by simp [wf_config_item])

theorem resolve_items_spec (settings : JValue) (requested : List JValue)
    (h : requested.all wf_config_item = true) :
    resolve_items settings requested =
      Except.ok (requested.map (spec_item_value settings)) := by
  induction requested with
  | nil => rfl
  | cons it its ih =>
    rw [List.all_cons, Bool.and_eq_true] at h
    rw [resolve_items]
    simp only [configuration_item_value_spec settings it h.1, ih h.2]
    rfl

/-! ## Claim theorems -/

/-- C1 counterexample: a Session in `STOPPING` whose transport closes does
not have state `STOPPED` afterwards — `on_transport_close` never assigns
the state. -/
theorem transport_close_not_stopped :
    (on_transport_close stoppingSession 0).fst.state ≠ ClientState.STOPPED := by
  decide

/-- C1 (amended): when the transport closes, from `STOPPING` or from any
other state, the Session's state is left unchanged — in particular a
Session in `STOPPING` remains in `STOPPING`, and no `STOPPED` state is
ever assigned; the transport reference is cleared, and the effects are
exactly the close log line and the `on_post_exit` manager call. -/
theorem transport_close_keeps_state (s : SessionData) (code : Int) :
    (on_transport_close s code).fst.state = s.state ∧
    (on_transport_close s code).fst.transportOpen = false ∧
    (on_transport_close s code).snd =
      [Action.logLine ("stopped, exit code " ++ toString code),
       Action.callManager "on_post_exit"] :=
  ⟨rfl, rfl, rfl⟩

/-- C2 counterexample: `execute_request` allocates id 1 and times out
returning `none`; the late response `{id 1, result 42}` is then deposited
into the sync-result map and remains there — it is not removed. -/
theorem sync_timeout_late_response_retained :
    execute_request_send freshClient = (⟨1, [], []⟩, 1) ∧
    execute_request_finish ⟨1, [], []⟩ 1 = (⟨1, [], []⟩, none) ∧
    response_handler ⟨1, [], []⟩ 1 (some (JValue.int 42)) none =
      Except.ok (⟨1, [], [(1, JValue.int 42)]⟩, []) ∧
    assocGet ([(1, JValue.int 42)] : List (Int × JValue)) 1 = some (JValue.int 42) :=
  ⟨rfl, rfl, rfl, rfl⟩

/-- C2 (amended): a synchronous request whose response never arrives in
time returns `none`, with the sync-result map unchanged; a response for
that id arriving afterwards (no handler pair is registered for a sync
request) invokes no handler but is deposited into the sync-result map,
where it remains. -/
theorem execute_request_timeout_spec (c : RpcState) (rid : Int) (v : JValue)
    (hsync : assocGet c.sync_request_results rid = none)
    (hresp : assocGet c.response_handlers rid = none) :
    execute_request_finish c rid = (c, none) ∧
    response_handler c rid (some v) none =
      Except.ok ({ request_id := c.request_id,
                   response_handlers := c.response_handlers,
                   sync_request_results := assocSet c.sync_request_results rid v }, []) := by
  constructor
  · rw [execute_request_finish, hsync]
  · rw [response_handler, hresp, assocErase_get_none _ _ hresp]
    rfl

/-- Witness for C2: the amended statement applied to the client that just
sent sync request 1, with the late result `7`. -/
theorem execute_request_timeout_spec_witness :
    assocGet (⟨1, [], []⟩ : RpcState).sync_request_results 1 = none ∧
    assocGet (⟨1, [], []⟩ : RpcState).response_handlers 1 = none ∧
    (execute_request_finish ⟨1, [], []⟩ 1 = (⟨1, [], []⟩, none) ∧
     response_handler ⟨1, [], []⟩ 1 (some (JValue.int 7)) none =
       Except.ok (⟨1, [], [(1, JValue.int 7)]⟩, [])) :=
  ⟨rfl, rfl, execute_request_timeout_spec ⟨1, [], []⟩ 1 (JValue.int 7) rfl rfl⟩

/-- C3 counterexample: the response for id 1 is delivered twice.  The first
delivery invokes the registered handler and removes the pair; the second
delivery deposits the result into the sync-result map (it does not leave
it unchanged), and a second delivery of an error response raises. -/
theorem double_delivery_not_dropped :
    response_handler ⟨1, [(1, (some 0, none))], []⟩ 1 (some (JValue.int 9)) none =
      Except.ok (⟨1, [], []⟩, [Action.invokeHandler 0 (JValue.int 9)]) ∧
    response_handler ⟨1, [], []⟩ 1 (some (JValue.int 9)) none =
      Except.ok (⟨1, [], [(1, JValue.int 9)]⟩, []) ∧
    response_handler ⟨1, [], []⟩ 1 none (some (JValue.str "boom")) = Except.error () :=
  ⟨rfl, rfl, rfl⟩

/-- C3 (amended): a delivery for an id with no registered handler pair
invokes no handler and leaves the response-handler table unchanged, but a
result is deposited into the sync-result map, and an error is raised
(`raise Error(...)` escapes `response_handler`). -/
theorem double_delivery_spec (c : RpcState) (rid : Int) (v e : JValue)
    (h : assocGet c.response_handlers rid = none) :
    response_handler c rid (some v) none =
      Except.ok ({ request_id := c.request_id,
                   response_handlers := c.response_handlers,
                   sync_request_results := assocSet c.sync_request_results rid v }, []) ∧
    response_handler c rid none (some e) = Except.error () := by
  constructor
  · rw [response_handler, h, assocErase_get_none _ _ h]
    rfl
  · rw [response_handler, h]
    rfl

/-- Witness for C3: the amended statement applied to a client with an
empty handler table. -/
theorem double_delivery_spec_witness :
    assocGet (⟨2, [], []⟩ : RpcState).response_handlers 2 = none ∧
    (response_handler ⟨2, [], []⟩ 2 (some (JValue.int 5)) none =
       Except.ok (⟨2, [], [(2, JValue.int 5)]⟩, []) ∧
     response_handler ⟨2, [], []⟩ 2 none (some (JValue.str "oops")) = Except.error ()) :=
  ⟨rfl, double_delivery_spec ⟨2, [], []⟩ 2 (JValue.int 5) (JValue.str "oops") rfl⟩

/-- C4 counterexample: with `textDocumentSync = {"change": null}`,
`text_sync_kind` (and with it `should_notify_did_change`) raises instead
of returning a definite value — Python `int(None)` is a `TypeError`, and
`textsync.get('change', ...)` only falls back to the default when the
field is absent, not when it is `null`. -/
theorem text_sync_kind_raises :
    text_sync_kind [("textDocumentSync", JValue.obj [("change", JValue.null)])] =
      Except.error () ∧
    should_notify_did_change [("textDocumentSync", JValue.obj [("change", JValue.null)])] =
      Except.error () :=
  ⟨rfl, rfl⟩

/-- C4 (amended): `should_notify_did_open`, `should_notify_will_save`,
`should_request_will_save_wait_until`, `should_notify_did_save` and
`should_notify_did_close` always return a definite value (they are
Bool-valued, no operation in them raises); `text_sync_kind` and
`should_notify_did_change` return a definite value exactly when
`textDocumentSync` is not an object whose effective `change` value fails
Python int-coercion. -/
theorem capability_decoders_totality (caps : List (String × JValue)) :
    isOk (text_sync_kind caps) = change_field_ok caps ∧
    isOk (should_notify_did_change caps) = change_field_ok caps ∧
    should_notify_did_close caps = should_notify_did_open caps := by
  have htsk : isOk (text_sync_kind caps) = change_field_ok caps := by
    rw [text_sync_kind, change_field_ok]
    cases dictGet caps "textDocumentSync" with
    | obj kvs => exact isOk_pyInt _
    | null => rfl
    | bool b => rfl
    | int n => rfl
    | str s => rfl
    | arr xs => rfl
  refine ⟨htsk, ?_, rfl⟩
  rw [should_notify_did_change, isOk_map]
  exact htsk

/-- C5: an incoming payload whose mangled method has no handler attribute
is answered, when it carries an id, with an error response of code
`MethodNotFound` and message equal to the method name, and is logged as an
unhandled notification (with no reply) when it carries none; the
dispatcher is a total function, no exception escapes. -/
theorem unknown_method_spec (handlers : List String) (method : String)
    (rid : RequestId) (params : JValue)
    (h : handlers.contains (mangle method) = false) :
    request_or_notification_handler handlers method (some rid) params =
      [Action.sendErrorResponse rid MethodNotFound method] ∧
    request_or_notification_handler handlers method none params =
      [Action.logUnhandled method] := by
  have h' : mangle method ∉ handlers := by simpa using h
  constructor <;> simp [request_or_notification_handler, h']

/-- Witness for C5: scenario S3 — `{id: "a", method: "server/unknown"}`
against the Session's handler attributes. -/
theorem unknown_method_spec_witness :
    sessionHandlerNames.contains (mangle "server/unknown") = false ∧
    (request_or_notification_handler sessionHandlerNames "server/unknown"
        (some (RequestId.str "a")) JValue.null =
      [Action.sendErrorResponse (RequestId.str "a") MethodNotFound "server/unknown"] ∧
     request_or_notification_handler sessionHandlerNames "server/unknown" none JValue.null =
      [Action.logUnhandled "server/unknown"]) :=
  ⟨by decide, unknown_method_spec sessionHandlerNames "server/unknown"
    (RequestId.str "a") JValue.null (by decide)⟩

/-- C6: on every successful `initialize` response (capabilities an
object, and — when the folder list is non-empty, the only case in which
the code consults it — the workspace-folder support chain evaluating
without error): the capability cache is updated from the response, the
state becomes `READY`, and `workspace/didChangeConfiguration` carrying
`{settings: config.settings}` is sent exactly when `config.settings` is
truthy, followed by the `on_post_initialize` manager call — all of this
unconditionally; the folder list is kept when it is empty or the server
advertises `workspace.workspaceFolders.supported`, and truncated to
exactly its first folder otherwise. -/
theorem handle_init_result_spec (s : SessionData) (result : JValue)
    (resKvs respCaps : List (String × JValue)) (supVal : JValue)
    (h1 : result = JValue.obj resKvs)
    (h2 : dictGetD resKvs "capabilities" (JValue.obj []) = JValue.obj respCaps)
    (h3 : s.workspaceFolders.isEmpty = false →
      supports_workspace_folders (dictUpdate s.capabilities respCaps) = Except.ok supVal) :
    isOk (handle_init_result s result) = true ∧
    (initResultState s result).capabilities = dictUpdate s.capabilities respCaps ∧
    (initResultState s result).state = ClientState.READY ∧
    (initResultState s result).workspaceFolders =
      (if s.workspaceFolders.isEmpty then s.workspaceFolders
       else if truthy supVal then s.workspaceFolders
       else s.workspaceFolders.take 1) ∧
    initResultActs s result =
      (if truthy s.configSettings then
        [Action.sendNotification "workspace/didChangeConfiguration"
          (JValue.obj [("settings", s.configSettings)])]
      else []) ++ [Action.callManager "on_post_initialize"] := by
  subst h1
  cases hEmpty : s.workspaceFolders.isEmpty with
  | true =>
    have hmain : handle_init_result s (JValue.obj resKvs) =
        Except.ok (initReadyState s (dictUpdate s.capabilities respCaps)
          s.workspaceFolders, initNotifyActs s) := by
      simp only [handle_init_result, h2, hEmpty, if_true]
    refine ⟨?_, ?_, ?_, ?_, ?_⟩
    · rw [hmain]; rfl
    · rw [initResultState, hmain]; rfl
    · rw [initResultState, hmain]; rfl
    · rw [initResultState, hmain]; rfl
    · rw [initResultActs, hmain]; rfl
  | false =>
    have hsup := h3 hEmpty
    cases htr : truthy supVal with
    | true =>
      have hmain : handle_init_result s (JValue.obj resKvs) =
          Except.ok (initReadyState s (dictUpdate s.capabilities respCaps)
            s.workspaceFolders, initNotifyActs s) := by
        simp [handle_init_result, h2, hEmpty, hsup, htr]
      refine ⟨?_, ?_, ?_, ?_, ?_⟩
      · rw [hmain]; rfl
      · rw [initResultState, hmain]; rfl
      · rw [initResultState, hmain]; rfl
      · rw [initResultState, hmain]; rfl
      · rw [initResultActs, hmain]; rfl
    | false =>
      have hmain : handle_init_result s (JValue.obj resKvs) =
          Except.ok (initReadyState s (dictUpdate s.capabilities respCaps)
            (s.workspaceFolders.take 1), initNotifyActs s) := by
        simp [handle_init_result, h2, hEmpty, hsup, htr]
      refine ⟨?_, ?_, ?_, ?_, ?_⟩
      · rw [hmain]; rfl
      · rw [initResultState, hmain]; rfl
      · rw [initResultState, hmain]; rfl
      · rw [initResultState, hmain]; rfl
      · rw [initResultActs, hmain]; rfl

/-- Witness for C6: scenario S5 — three folders, non-empty settings, a
response without `workspace.workspaceFolders.supported`; the folder list
ends up truncated to the first folder and the configuration notification
is sent. -/
theorem handle_init_result_spec_witness :
    sampleInitResult =
      JValue.obj [("capabilities", JValue.obj [("textDocumentSync", JValue.int 1)])] ∧
    supports_workspace_folders
      (dictUpdate startingSession.capabilities [("textDocumentSync", JValue.int 1)]) =
      Except.ok JValue.null ∧
    (isOk (handle_init_result startingSession sampleInitResult) = true ∧
     (initResultState startingSession sampleInitResult).capabilities =
       dictUpdate startingSession.capabilities [("textDocumentSync", JValue.int 1)] ∧
     (initResultState startingSession sampleInitResult).state = ClientState.READY ∧
     (initResultState startingSession sampleInitResult).workspaceFolders =
       startingSession.workspaceFolders.take 1 ∧
     initResultActs startingSession sampleInitResult =
       [Action.sendNotification "workspace/didChangeConfiguration"
          (JValue.obj [("settings", startingSession.configSettings)]),
        Action.callManager "on_post_initialize"]) :=
  ⟨rfl, rfl,
   handle_init_result_spec startingSession sampleInitResult
     [("capabilities", JValue.obj [("textDocumentSync", JValue.int 1)])]
     [("textDocumentSync", JValue.int 1)] JValue.null rfl rfl (fun _ => rfl)⟩

/-- The ids a run of allocating calls produces, in closed form. -/
theorem request_ids_formula (ops : List RpcOp) (c : RpcState) :
    request_ids c ops =
      (List.range ops.length).map (fun i : Nat => c.request_id + ((i : Int) + 1)) := by
  induction ops generalizing c with
  | nil => rfl
  | cons op ops ih =>
    have main : ∀ (c' : RpcState), c'.request_id = c.request_id + 1 →
        (c.request_id + 1) :: request_ids c' ops =
          (List.range (op :: ops).length).map (fun i : Nat => c.request_id + ((i : Int) + 1)) := by
      intro c' hc'
      rw [ih c', hc', List.length_cons, List.range_succ_eq_map, List.map_cons, List.map_map]
      refine congrArg₂ List.cons (by push_cast; ring) ?_
      refine List.map_congr_left ?_
      intro i _
      simp only [Function.comp_apply]
      push_cast
      ring
    cases op with
    | sendReq h eh => exact main (send_request c h eh).fst rfl
    | execReq => exact main (execute_request_send c).fst rfl

/-- C7: over any sequence of `send_request` and `execute_request` calls on
a fresh client, the allocated request ids are strictly increasing and the
first one is 1. -/
theorem request_ids_strictly_increasing (ops : List RpcOp) :
    List.Chain' (fun a b => a < b) (request_ids freshClient ops) ∧
    (request_ids freshClient ops).head? = if ops.isEmpty then none else some 1 := by
  rw [request_ids_formula]
  constructor
  · refine List.Pairwise.chain' ?_
    refine List.Pairwise.map _ ?_ (List.pairwise_lt_range ops.length)
    intro a b hab
    show freshClient.request_id + ((a : Int) + 1) < freshClient.request_id + ((b : Int) + 1)
    omega
  · cases ops with
    | nil => rfl
    | cons op ops =>
      rw [List.length_cons, List.range_succ_eq_map, List.map_cons, List.head?_cons]
      simp [freshClient]

/-- C8: a `workspace/configuration` request whose `items` is an array of
items each carrying a string or no `section` is answered with one element
per item, in order: a non-empty string section resolves by dotted lookup
into the settings (null when a step is missing or traverses a non-object,
by `get_dotted_value_go_spec`), an empty or absent section yields the
whole settings. -/
theorem workspace_configuration_spec (settings : JValue) (params : List (String × JValue))
    (rid : RequestId) (requested : List JValue)
    (hitems : dictGet params "items" = JValue.arr requested)
    (hwf : requested.all wf_config_item = true) :
    m_workspace_configuration settings params rid =
      Except.ok [Action.sendResponse rid
        (JValue.arr (requested.map (spec_item_value settings)))] := by
  have hio : items_of params = Except.ok requested := by
    rw [items_of, hitems]
    cases requested <;> rfl
  simp only [m_workspace_configuration, hio, resolve_items_spec settings requested hwf]

/-- Witness for C8: scenario S4. -/
theorem workspace_configuration_spec_witness :
    dictGet sampleParams "items" = JValue.arr sampleItems ∧
    sampleItems.all wf_config_item = true ∧
    m_workspace_configuration sampleSettings sampleParams (RequestId.int 5) =
      Except.ok [Action.sendResponse (RequestId.int 5)
        (JValue.arr [JValue.str "/usr/bin/py", sampleSettings, sampleSettings])] :=
  ⟨rfl, rfl,
   workspace_configuration_spec sampleSettings sampleParams (RequestId.int 5)
     sampleItems rfl rfl⟩

/-- C9: `handles_path` rejects an absent or empty path, accepts every
non-empty path when the folder list is empty, and otherwise accepts
exactly the paths that are subpaths of some stored folder's path. -/
theorem handles_path_spec (folders : List WorkspaceFolder) (p : String) :
    handles_path folders none = false ∧
    handles_path folders (some "") = false ∧
    (handles_path folders (some p) = true ↔
      p ≠ "" ∧ (folders = [] ∨ ∃ f ∈ folders, is_subpath_of p f.path = true)) := by
  refine ⟨rfl, rfl, ?_⟩
  rw [handles_path]
  cases folders with
  | nil =>
    by_cases hp : p = ""
    · subst hp; simp
    · simp [hp]
  | cons f fs =>
    by_cases hp : p = ""
    · subst hp; simp
    · simp [hp, List.any_eq_true]

/-- C10: evaluating `BidirectionalDictionary` at the failing input — after
`d[0] = 1; d[2] = 1; del d[0]` the value 1 is still the value of key 2,
yet `has_value(1)` returns false, because `__delitem__` discarded 1 from
the shared inverse set.  This contradicts `has_value`'s own docstring
("Is this value in the dictionary?"). -/
theorem bidict_has_value_bug :
    Bidict.run (Bidict.empty : Bidict Nat Nat) [BOp.set 0 1, BOp.set 2 1, BOp.del 0] =
      Except.ok ⟨[(2, 1)], []⟩ ∧
    (Bidict.mk [(2, 1)] [] : Bidict Nat Nat).has_value 1 = false ∧
    assocGet ([(2, 1)] : List (Nat × Nat)) 2 = some 1 :=
  ⟨rfl, rfl, rfl⟩

end LSPCore
